import Mathlib

/-!
Verification of the Prezi AI job pipeline and evidence-aggregation engine.

The repository ships the React frontend (components, API client, types) and
the design documents; the FastAPI backend (evidence aggregator, job store,
orchestrator, quality scorer) is declared through its API surface and the
frontend types but its Python sources are not in the tree.  Backend
behaviour is therefore modelled from the specification (marked
`Modelled from the spec:`); frontend behaviour is embedded from the
TypeScript sources.
-/

namespace Prezi

/-- Deck length option selected by the user (frontend `GenerateRequest.length`,
DECISIONS.md deck configuration). -/
inductive DeckLength where
  | short
  | medium
  | long
deriving DecidableEq, BEq

/-- Modelled from the spec: the target raw-source count per hypothesis is
derived from deck length (spec 4.4: short 1-2, medium 3-4, long 5+); the
backend deriving it is absent, so one representative value per band is fixed. -/
def targetFor : DeckLength → Nat
  | .short => 2
  | .medium => 3
  | .long => 5

/-- Confidence enum from spec section 3 (`ConfidenceLevel`). -/
inductive ConfidenceLevel where
  | low
  | medium
  | high
deriving DecidableEq, BEq

/-- Raw search result shape (spec 6: search capability returns
title, url, snippet, date). -/
structure RawResult where
  title : String
  url : String
  snippet : String
  date : Option String
deriving DecidableEq

/-- Classification of one raw result against a hypothesis (spec 4.4 step 3). -/
inductive Classification where
  | supporting
  | refuting
  | irrelevant
deriving DecidableEq, BEq

/-- Evidence item owned by a hypothesis (spec section 3). -/
structure Evidence where
  source : String
  url : String
  supports : Bool
  quote : String
  date : Option String
deriving DecidableEq

/-- Per-hypothesis output of the evidence aggregator. -/
structure HypothesisResult where
  evidence : List Evidence
  validated : Option Bool
  confidence : ConfidenceLevel
deriving DecidableEq

/-- Modelled from the spec: tri-state `validated` (spec 4.4 step 5) — true if
supporting strictly outnumbers refuting, false if refuting strictly
outnumbers supporting, unset otherwise; the backend research agent is absent. -/
def validated (s r : Nat) : Option Bool :=
  if r < s then some true
  else if s < r then some false
  else none

/-- Modelled from the spec: `ConfidenceLevel` computation (spec 4.4 step 6),
first matching branch wins: `high` when kept count reaches the target and the
support/refute ratio is at least 2 in either direction; `low` when the count
is below half the target or the ratio is within [0.5, 2]; `medium` otherwise.
The backend research agent is absent. -/
def confidence (target s r : Nat) : ConfidenceLevel :=
  if target ≤ s + r ∧ (2 * r ≤ s ∨ 2 * s ≤ r) then .high
  else if 2 * (s + r) < target ∨ (s ≤ 2 * r ∧ r ≤ 2 * s) then .low
  else .medium

/-- Results of the queries that succeeded, flattened in discovery order
(spec 4.4: a failed query is skipped, the rest proceed). -/
def successResults (qrs : List (Except String (List RawResult))) : List RawResult :=
  (qrs.filterMap (fun q => match q with
    | Except.ok rs => some rs
    | Except.error _ => none)).flatten

/-- Drop results classified irrelevant (spec 4.4 step 3). -/
def relevantResults (qrs : List (Except String (List RawResult)))
    (classify : RawResult → Classification) : List RawResult :=
  (successResults qrs).filter (fun x => classify x ≠ Classification.irrelevant)

/-- Deduplicate by URL, first occurrence wins (spec 4.4 step 4). -/
def dedupByUrl (seen : List String) : List RawResult → List RawResult
  | [] => []
  | x :: xs =>
    if x.url ∈ seen then dedupByUrl seen xs
    else x :: dedupByUrl (x.url :: seen) xs

/-- Number of supporting items in an evidence sequence. -/
def supportCount (ev : List Evidence) : Nat :=
  (ev.filter (fun e => e.supports)).length

/-- Number of refuting items in an evidence sequence. -/
def refuteCount (ev : List Evidence) : Nat :=
  (ev.filter (fun e => !e.supports)).length

/-- Kept evidence of one hypothesis: successful queries, irrelevant dropped,
deduplicated by URL, mapped onto Evidence records (spec 4.4 steps 2-4). -/
def keptEvidence (qrs : List (Except String (List RawResult)))
    (classify : RawResult → Classification) : List Evidence :=
  (dedupByUrl [] (relevantResults qrs classify)).map (fun x =>
    { source := x.title
      url := x.url
      supports := classify x == Classification.supporting
      quote := x.snippet
      date := x.date })

/-- Modelled from the spec: the evidence aggregator for one hypothesis
(spec 4.4); the backend research agent is absent.  Takes the per-query
outcomes and a classifier (the pluggable search/classification collaborators)
and produces evidence, tri-state validation and a confidence level. -/
def aggregate (len : DeckLength) (qrs : List (Except String (List RawResult)))
    (classify : RawResult → Classification) : HypothesisResult :=
  { evidence := keptEvidence qrs classify
    validated := validated (supportCount (keptEvidence qrs classify))
      (refuteCount (keptEvidence qrs classify))
    confidence := confidence (targetFor len)
      (supportCount (keptEvidence qrs classify))
      (refuteCount (keptEvidence qrs classify)) }

/-- Modelled from the spec: the Research stage runs the aggregator once per
hypothesis and always succeeds (spec 4.4 failure semantics: a hypothesis with
zero evidence does not fail the stage); the backend orchestrator is absent. -/
def researchStage (len : DeckLength)
    (hyps : List (List (Except String (List RawResult))))
    (classify : RawResult → Classification) : Except String (List HypothesisResult) :=
  Except.ok (hyps.map (fun qrs => aggregate len qrs classify))

/-- Claim C1: the aggregator's confidence level is the deterministic
first-match function of kept count and support/refute ratio: `high` iff the
count reaches the target and the ratio is at least 2:1 in either direction;
`low` iff not `high` and the count is below half the target or the ratio lies
within [0.5, 2]; `medium` in the remaining case (the stated high and low
conditions overlap at ratio exactly 2 with count at or above target; the
first branch wins there).  The aggregator output carries exactly this
function of its own kept-evidence counts. -/
theorem confidence_level_cases (target s r : Nat) :
    (confidence target s r = .high ↔ (target ≤ s + r ∧ (2 * r ≤ s ∨ 2 * s ≤ r)))
    ∧ (confidence target s r = .low ↔
        (¬(target ≤ s + r ∧ (2 * r ≤ s ∨ 2 * s ≤ r))
          ∧ (2 * (s + r) < target ∨ (s ≤ 2 * r ∧ r ≤ 2 * s))))
    ∧ (confidence target s r = .medium ↔
        (¬(target ≤ s + r ∧ (2 * r ≤ s ∨ 2 * s ≤ r))
          ∧ ¬(2 * (s + r) < target ∨ (s ≤ 2 * r ∧ r ≤ 2 * s))))
    ∧ (∀ (len : DeckLength) (qrs : List (Except String (List RawResult)))
        (classify : RawResult → Classification),
        (aggregate len qrs classify).confidence
          = confidence (targetFor len)
              (supportCount ((aggregate len qrs classify).evidence))
              (refuteCount ((aggregate len qrs classify).evidence))) := by
  refine ⟨?_, ?_, ?_, ?_⟩
  · unfold confidence
    split
    · simp_all
    · split <;> simp_all
  · unfold confidence
    split
    · simp_all
    · split <;> simp_all
  · unfold confidence
    split
    · simp_all
    · split <;> simp_all
  · intro len qrs classify
    rfl

/-- The tri-state validation function, characterised on arbitrary counts. -/
lemma validated_cases (s r : Nat) :
    (validated s r = some true ↔ r < s)
    ∧ (validated s r = some false ↔ s < r)
    ∧ (validated s r = none ↔ s = r) := by
  unfold validated
  refine ⟨?_, ?_, ?_⟩ <;> (split <;> try split) <;> simp_all <;> omega

/-- Claim C2: the aggregator's `validated` field is `some true` exactly when
supporting evidence strictly outnumbers refuting, `some false` exactly when
refuting strictly outnumbers supporting, and `none` exactly on a tie
(including zero evidence). -/
theorem validated_tristate (len : DeckLength)
    (qrs : List (Except String (List RawResult)))
    (classify : RawResult → Classification) :
    ((aggregate len qrs classify).validated = some true ↔
      refuteCount ((aggregate len qrs classify).evidence)
        < supportCount ((aggregate len qrs classify).evidence))
    ∧ ((aggregate len qrs classify).validated = some false ↔
      supportCount ((aggregate len qrs classify).evidence)
        < refuteCount ((aggregate len qrs classify).evidence))
    ∧ ((aggregate len qrs classify).validated = none ↔
      supportCount ((aggregate len qrs classify).evidence)
        = refuteCount ((aggregate len qrs classify).evidence)) :=
  validated_cases (supportCount (keptEvidence qrs classify))
    (refuteCount (keptEvidence qrs classify))

/-- When every query failed, no raw results survive. -/
lemma successResults_all_error (qrs : List (Except String (List RawResult)))
    (h : ∀ q ∈ qrs, ∃ e, q = Except.error e) : successResults qrs = [] := by
  induction qrs with
  | nil => rfl
  | cons q qs ih =>
    obtain ⟨e, he⟩ := h q (by simp)
    subst he
    have hrest := ih (fun q hq => h q (by simp [hq]))
    simpa [successResults, List.filterMap_cons] using hrest

/-- With no evidence the derived confidence is `low` for every deck length. -/
lemma confidence_target_zero (len : DeckLength) :
    confidence (targetFor len) 0 0 = ConfidenceLevel.low := by
  cases len <;> decide

/-- Claim C3: a hypothesis whose queries all fail is recorded with an empty
evidence sequence, `validated` unset and `confidence` low, and the Research
stage still returns success (one result per hypothesis) rather than failing
the job. -/
theorem all_queries_failed_low (len : DeckLength)
    (qrs : List (Except String (List RawResult)))
    (classify : RawResult → Classification)
    (h : ∀ q ∈ qrs, ∃ e, q = Except.error e) :
    (aggregate len qrs classify).evidence = []
    ∧ (aggregate len qrs classify).validated = none
    ∧ (aggregate len qrs classify).confidence = ConfidenceLevel.low
    ∧ ∀ hyps, ∃ res, researchStage len hyps classify = Except.ok res
        ∧ res.length = hyps.length := by
  have hev : keptEvidence qrs classify = [] := by
    unfold keptEvidence relevantResults
    rw [successResults_all_error qrs h]
    rfl
  refine ⟨hev, ?_, ?_, ?_⟩
  · show validated (supportCount (keptEvidence qrs classify))
      (refuteCount (keptEvidence qrs classify)) = none
    rw [hev]
    rfl
  · show confidence (targetFor len) (supportCount (keptEvidence qrs classify))
      (refuteCount (keptEvidence qrs classify)) = ConfidenceLevel.low
    rw [hev]
    exact confidence_target_zero len
  · intro hyps
    exact ⟨_, rfl, by simp [researchStage]⟩

/-- Witness for C3 at a concrete all-failed query list. -/
theorem all_queries_failed_low_witness :
    (aggregate DeckLength.medium [Except.error "timeout", Except.error "rate limit"]
        (fun _ => Classification.supporting)).evidence = []
    ∧ (aggregate DeckLength.medium [Except.error "timeout", Except.error "rate limit"]
        (fun _ => Classification.supporting)).validated = none
    ∧ (aggregate DeckLength.medium [Except.error "timeout", Except.error "rate limit"]
        (fun _ => Classification.supporting)).confidence = ConfidenceLevel.low
    ∧ ∀ hyps, ∃ res,
        researchStage DeckLength.medium hyps (fun _ => Classification.supporting)
          = Except.ok res ∧ res.length = hyps.length :=
  all_queries_failed_low DeckLength.medium
    [Except.error "timeout", Except.error "rate limit"]
    (fun _ => Classification.supporting)
    (by
      intro q hq
      simp only [List.mem_cons, List.not_mem_nil, or_false] at hq
      rcases hq with rfl | rfl
      · exact ⟨_, rfl⟩
      · exact ⟨_, rfl⟩)

/-- Position of a URL in the citation table (0-based; table membership is
established before use). -/
def posIn : List String → String → Nat
  | [], _ => 0
  | v :: vs, u => if v = u then 0 else posIn vs u + 1

/-- Modelled from the spec: registering one URL in the job-scoped citation
table (spec 4.4 step 7, spec 3 `Citation`): a URL already present keeps its
existing 1-based index, a new URL is appended and receives the next index;
the backend citation module is absent. -/
def registerUrl (tbl : List String) (u : String) : List String × Nat :=
  if u ∈ tbl then (tbl, posIn tbl u + 1) else (tbl ++ [u], tbl.length + 1)

/-- Modelled from the spec: threading the citation table through a sequence
of kept-evidence URLs in discovery order, returning the final table and the
index assigned to each occurrence; the backend citation module is absent. -/
def assignCitations (tbl : List String) : List String → List String × List Nat
  | [] => (tbl, [])
  | u :: us =>
    ((assignCitations (registerUrl tbl u).1 us).1,
      (registerUrl tbl u).2 :: (assignCitations (registerUrl tbl u).1 us).2)

/-- The job-scoped citation table built from all URLs of a job. -/
def citeTable (urls : List String) : List String :=
  (assignCitations [] urls).1

/-- Registering further URLs only appends to the table. -/
lemma assign_table_extends (urls : List String) :
    ∀ tbl : List String, ∃ rest, (assignCitations tbl urls).1 = tbl ++ rest := by
  induction urls with
  | nil => exact fun tbl => ⟨[], by simp [assignCitations]⟩
  | cons u us ih =>
    intro tbl
    obtain ⟨rest, hrest⟩ := ih (registerUrl tbl u).1
    by_cases hu : u ∈ tbl
    · refine ⟨rest, ?_⟩
      show (assignCitations (registerUrl tbl u).1 us).1 = tbl ++ rest
      have h1 : (registerUrl tbl u).1 = tbl := by simp [registerUrl, hu]
      rw [h1] at hrest ⊢
      exact hrest
    · refine ⟨u :: rest, ?_⟩
      show (assignCitations (registerUrl tbl u).1 us).1 = tbl ++ u :: rest
      have h1 : (registerUrl tbl u).1 = tbl ++ [u] := by simp [registerUrl, hu]
      rw [h1] at hrest ⊢
      rw [hrest]
      simp

/-- `posIn` ignores appended entries once the URL is present. -/
lemma posIn_append_of_mem {u : String} {t : List String} (r : List String)
    (h : u ∈ t) : posIn (t ++ r) u = posIn t u := by
  induction t with
  | nil => cases h
  | cons v vs ih =>
    by_cases hv : v = u
    · simp [posIn, hv]
    · have : u ∈ vs := by
        rcases List.mem_cons.mp h with h' | h'
        · exact absurd h'.symm hv
        · exact h'
      simp [posIn, hv, ih this]

/-- A freshly appended URL sits at the old length of the table. -/
lemma posIn_append_self {u : String} {t : List String} (h : u ∉ t) :
    posIn (t ++ [u]) u = t.length := by
  induction t with
  | nil => simp [posIn]
  | cons v vs ih =>
    have hv : v ≠ u := fun hvu => h (by simp [hvu])
    have hvs : u ∉ vs := fun hm => h (by simp [hm])
    simp [posIn, hv, ih hvs]

/-- Every index handed out by the threaded assignment is the 1-based position
of its URL in the final table. -/
lemma assign_indices (urls : List String) :
    ∀ tbl : List String, (assignCitations tbl urls).2
      = urls.map (fun u => posIn (assignCitations tbl urls).1 u + 1) := by
  induction urls with
  | nil => intro tbl; rfl
  | cons u us ih =>
    intro tbl
    obtain ⟨rest, hrest⟩ := assign_table_extends us (registerUrl tbl u).1
    have hhead : (registerUrl tbl u).2
        = posIn (assignCitations (registerUrl tbl u).1 us).1 u + 1 := by
      rw [hrest]
      unfold registerUrl
      by_cases hu : u ∈ tbl
      · simp only [if_pos hu]
        rw [posIn_append_of_mem rest hu]
      · simp only [if_neg hu]
        rw [posIn_append_of_mem rest (by simp), posIn_append_self hu]
    calc (assignCitations tbl (u :: us)).2
        = (registerUrl tbl u).2 :: (assignCitations (registerUrl tbl u).1 us).2 := rfl
      _ = (registerUrl tbl u).2
          :: us.map (fun v => posIn (assignCitations (registerUrl tbl u).1 us).1 v + 1) := by
          rw [ih (registerUrl tbl u).1]
      _ = (u :: us).map (fun v => posIn (assignCitations tbl (u :: us)).1 v + 1) := by
          have hT : (assignCitations tbl (u :: us)).1
              = (assignCitations (registerUrl tbl u).1 us).1 := rfl
          rw [List.map_cons, hT, ← hhead]

/-- The citation table never holds a URL twice. -/
lemma assign_table_nodup (urls : List String) :
    ∀ tbl : List String, tbl.Nodup → (assignCitations tbl urls).1.Nodup := by
  induction urls with
  | nil => intro tbl h; exact h
  | cons u us ih =>
    intro tbl h
    show (assignCitations (registerUrl tbl u).1 us).1.Nodup
    refine ih _ ?_
    unfold registerUrl
    by_cases hu : u ∈ tbl
    · simpa [hu] using h
    · simp only [if_neg hu]
      simp [List.nodup_append, h, hu]

/-- Claim C4: citation indices are assigned in first-seen order across the
whole job and are stable: each occurrence of a URL receives the 1-based
position of that URL in the deduplicated first-seen table (so a repeated URL
keeps its existing index and each distinct URL has exactly one index), the
table holds no URL twice, and the discovery order [urlA, urlB, urlA] yields
the indices [1, 2, 1]. -/
theorem citation_first_seen (urls : List String) :
    (assignCitations [] urls).2 = urls.map (fun u => posIn (citeTable urls) u + 1)
    ∧ (citeTable urls).Nodup
    ∧ (assignCitations [] ["urlA", "urlB", "urlA"]).2 = [1, 2, 1] :=
  ⟨assign_indices urls [], assign_table_nodup urls [] List.nodup_nil, by decide⟩

/-- Quality scorecard shape, fields as in the frontend `QualityScore`
interface (six 0-100 dimension sub-scores, overall score, suggestions). -/
structure QualityScore where
  overall_score : Nat
  slide_logic : Nat
  mece_structure : Nat
  so_what : Nat
  data_quality : Nat
  chart_accuracy : Nat
  visual_consistency : Nat
  suggestions : List String
deriving DecidableEq

/-- Modelled from the spec: the fixed-weight combination of the six dimension
sub-scores (spec 4.5; equal weights, i.e. the mean of the six 0-100
sub-scores); the backend quality agent is absent. -/
def weightedSum (s1 s2 s3 s4 s5 s6 : Nat) : Nat :=
  (s1 + s2 + s3 + s4 + s5 + s6) / 6

/-- Clamp a score into [0, 100] (the lower bound is inherent to Nat). -/
def clamp100 (x : Nat) : Nat := min 100 x

/-- Modelled from the spec: assembling the scorecard from the six sub-scores
(spec 4.5: `overall_score` is the fixed-weight sum clamped to [0, 100]);
the backend quality agent is absent. -/
def mkQualityScore (s1 s2 s3 s4 s5 s6 : Nat) (sugg : List String) : QualityScore :=
  { overall_score := clamp100 (weightedSum s1 s2 s3 s4 s5 s6)
    slide_logic := s1
    mece_structure := s2
    so_what := s3
    data_quality := s4
    chart_accuracy := s5
    visual_consistency := s6
    suggestions := sugg }

/-- Modelled from the spec: the scorecard passes iff the overall score is at
least the 70/100 threshold (spec 4.5, MVP scope F6.5). -/
def passes (q : QualityScore) : Bool := decide (70 ≤ q.overall_score)

/-- Claim C8: the scorecard's `overall_score` is the fixed-weight sum of the
six dimension sub-scores clamped to [0, 100] (hence never exceeds 100), and
the scorecard passes exactly when `overall_score` is at least 70. -/
theorem overall_score_clamped_pass (s1 s2 s3 s4 s5 s6 : Nat) (sugg : List String) :
    (mkQualityScore s1 s2 s3 s4 s5 s6 sugg).overall_score
      = clamp100 (weightedSum s1 s2 s3 s4 s5 s6)
    ∧ (mkQualityScore s1 s2 s3 s4 s5 s6 sugg).overall_score ≤ 100
    ∧ (passes (mkQualityScore s1 s2 s3 s4 s5 s6 sugg) = true
        ↔ 70 ≤ (mkQualityScore s1 s2 s3 s4 s5 s6 sugg).overall_score) :=
  ⟨rfl, Nat.min_le_left 100 _, by simp [passes]⟩

/-- Job lifecycle states (spec 4.2, frontend `JobStatus.status` union). -/
inductive JobStatus where
  | queued
  | storyline
  | researching
  | slides
  | quality
  | completed
  | failed
deriving DecidableEq, BEq

/-- Modelled from the spec: the Job entity (spec section 3); the backend job
store is absent.  Stage outputs are tracked by presence (`storylineOut` as a
unit token, research and quality outputs with their modelled contents);
`generation` is the run-generation counter of spec 4.3/9. -/
structure Job where
  id : String
  topic : String
  length : DeckLength
  status : JobStatus
  progress : Int
  message : String
  error : Option String
  createdAt : Int
  completedAt : Option Int
  storylineOut : Option Unit
  researchOut : Option (List HypothesisResult)
  qualityOut : Option QualityScore
  generation : Nat

/-- Modelled from the spec: job creation (spec 4.1 `create`): status queued,
progress 0, no error, no outputs, no completion time. -/
def createJob (id topic : String) (len : DeckLength) (t : Int) : Job :=
  { id := id
    topic := topic
    length := len
    status := JobStatus.queued
    progress := 0
    message := "Queued for processing"
    error := none
    createdAt := t
    completedAt := none
    storylineOut := none
    researchOut := none
    qualityOut := none
    generation := 0 }

/-- Modelled from the spec: the fresh run created by a retry (spec 4.2):
status back to queued, progress 0, error cleared, prior stage outputs
discarded, completion time cleared, same job id, next generation. -/
def resetRun (j : Job) : Job :=
  { j with
    status := JobStatus.queued
    progress := 0
    message := "Queued for processing"
    error := none
    completedAt := none
    storylineOut := none
    researchOut := none
    qualityOut := none
    generation := j.generation + 1 }

/-- Modelled from the spec: the retry endpoint (frontend `retryJob` caller in
services/api.ts; spec 4.2): only a failed job is given a fresh run. -/
def retryJob (j : Job) : Option Job :=
  if j.status = JobStatus.failed then some (resetRun j) else none

/-- Modelled from the spec: the state transitions of one run (spec 4.2 state
machine and progress mapping: storyline enter 5, storyline exit 25, research
exit 55, slides exit 80, completion 100; failure reachable from any
non-terminal state keeps the current progress and records an error). -/
inductive RunStep : Job → Job → Prop where
  | enterStoryline (j : Job) (h : j.status = JobStatus.queued) :
      RunStep j { j with status := JobStatus.storyline, progress := 5 }
  | exitStoryline (j : Job) (h : j.status = JobStatus.storyline) :
      RunStep j { j with status := JobStatus.researching, progress := 25,
                         storylineOut := some () }
  | exitResearch (j : Job) (res : List HypothesisResult)
      (h : j.status = JobStatus.researching) :
      RunStep j { j with status := JobStatus.slides, progress := 55,
                         researchOut := some res }
  | exitSlides (j : Job) (h : j.status = JobStatus.slides) :
      RunStep j { j with status := JobStatus.quality, progress := 80 }
  | exitQuality (j : Job) (q : QualityScore) (t : Int)
      (h : j.status = JobStatus.quality) :
      RunStep j { j with status := JobStatus.completed, progress := 100,
                         qualityOut := some q, completedAt := some t }
  | fail (j : Job) (e : String) (t : Int)
      (hn1 : j.status ≠ JobStatus.completed) (hn2 : j.status ≠ JobStatus.failed) :
      RunStep j { j with status := JobStatus.failed, error := some e,
                         completedAt := some t }

/-- Modelled from the spec: a job-store transition is either a step of the
current run or the retry of a failed job starting a fresh run (spec 4.2). -/
inductive Step : Job → Job → Prop where
  | run {j j' : Job} (h : RunStep j j') : Step j j'
  | retry (j : Job) (h : j.status = JobStatus.failed) : Step j (resetRun j)

/-- Reachability of a job state from a given starting state. -/
def Reaches (j0 j : Job) : Prop := Relation.ReflTransGen Step j0 j

/-- The stage-aligned progress invariant of spec 4.2: every status pins the
progress value, and a failed job keeps a pre-failure value. -/
def ProgressInv (j : Job) : Prop :=
  match j.status with
  | JobStatus.queued => j.progress = 0
  | JobStatus.storyline => j.progress = 5
  | JobStatus.researching => j.progress = 25
  | JobStatus.slides => j.progress = 55
  | JobStatus.quality => j.progress = 80
  | JobStatus.completed => j.progress = 100
  | JobStatus.failed => 0 ≤ j.progress ∧ j.progress ≤ 80

/-- The progress invariant confines progress to [0, 100]. -/
lemma progressInv_bounds {j : Job} (h : ProgressInv j) :
    0 ≤ j.progress ∧ j.progress ≤ 100 := by
  cases hs : j.status <;> simp only [ProgressInv, hs] at h <;> omega

/-- One run step preserves the progress invariant and never decreases
progress. -/
lemma runStep_inv_mono {j j' : Job} (hinv : ProgressInv j) (hs : RunStep j j') :
    ProgressInv j' ∧ j.progress ≤ j'.progress := by
  cases hs with
  | enterStoryline h =>
    simp only [ProgressInv, h] at hinv
    exact ⟨by simp [ProgressInv], by show j.progress ≤ 5; omega⟩
  | exitStoryline h =>
    simp only [ProgressInv, h] at hinv
    exact ⟨by simp [ProgressInv], by show j.progress ≤ 25; omega⟩
  | exitResearch res h =>
    simp only [ProgressInv, h] at hinv
    exact ⟨by simp [ProgressInv], by show j.progress ≤ 55; omega⟩
  | exitSlides h =>
    simp only [ProgressInv, h] at hinv
    exact ⟨by simp [ProgressInv], by show j.progress ≤ 80; omega⟩
  | exitQuality q t h =>
    simp only [ProgressInv, h] at hinv
    exact ⟨by simp [ProgressInv], by show j.progress ≤ 100; omega⟩
  | fail e t hn1 hn2 =>
    refine ⟨?_, le_refl _⟩
    have hb : 0 ≤ j.progress ∧ j.progress ≤ 80 := by
      cases hsj : j.status with
      | queued => simp only [ProgressInv, hsj] at hinv; omega
      | storyline => simp only [ProgressInv, hsj] at hinv; omega
      | researching => simp only [ProgressInv, hsj] at hinv; omega
      | slides => simp only [ProgressInv, hsj] at hinv; omega
      | quality => simp only [ProgressInv, hsj] at hinv; omega
      | completed => exact absurd hsj hn1
      | failed => exact absurd hsj hn2
    simpa [ProgressInv] using hb

/-- A run step only leaves a non-terminal state. -/
lemma runStep_src_not_terminal {j j' : Job} (hs : RunStep j j') :
    j.status ≠ JobStatus.completed ∧ j.status ≠ JobStatus.failed := by
  cases hs with
  | enterStoryline h => simp [h]
  | exitStoryline h => simp [h]
  | exitResearch res h => simp [h]
  | exitSlides h => simp [h]
  | exitQuality q t h => simp [h]
  | fail e t hn1 hn2 => exact ⟨hn1, hn2⟩

/-- Claim C5: along the snapshot sequence of one run (starting from the
queued, progress-0 state that both creation and retry establish, and
advancing by run steps), every snapshot's progress is an integer in [0, 100]
and progress never decreases between an earlier and a later snapshot.  The
job store applies these snapshots in this order and Pub/Sub delivers them to
every subscriber in applied order (duplicates allowed), so any two snapshots a
subscriber observes correspond to indices i ≤ j here. -/
theorem progress_monotone_bounded (f : Nat → Job) (n : Nat)
    (h0 : (f 0).status = JobStatus.queued ∧ (f 0).progress = 0)
    (hsteps : ∀ i, i < n → RunStep (f i) (f (i + 1))) :
    ∀ i j, i ≤ j → j ≤ n →
      0 ≤ (f j).progress ∧ (f j).progress ≤ 100
        ∧ (f i).progress ≤ (f j).progress := by
  have key : ∀ j, j ≤ n →
      ProgressInv (f j) ∧ ∀ i, i ≤ j → (f i).progress ≤ (f j).progress := by
    intro j
    induction j with
    | zero =>
      intro _
      refine ⟨?_, ?_⟩
      · simp only [ProgressInv, h0.1]
        exact h0.2
      · intro i hi
        have hi0 : i = 0 := Nat.le_zero.mp hi
        simp [hi0]
    | succ k ih =>
      intro hk
      have hk' : k ≤ n := Nat.le_of_succ_le hk
      obtain ⟨hinv, hmono⟩ := ih hk'
      obtain ⟨hinv', hle⟩ := runStep_inv_mono hinv (hsteps k (Nat.lt_of_succ_le hk))
      refine ⟨hinv', ?_⟩
      intro i hi
      rcases Nat.lt_or_ge i (k + 1) with hlt | hge
      · exact le_trans (hmono i (Nat.lt_succ_iff.mp hlt)) hle
      · have hieq : i = k + 1 := le_antisymm hi hge
        simp [hieq]
  intro i j hij hjn
  obtain ⟨hinv, hmono⟩ := key j hjn
  obtain ⟨hlo, hhi⟩ := progressInv_bounds hinv
  exact ⟨hlo, hhi, hmono i hij⟩

/-- Witness for C5 on a concrete two-snapshot run. -/
theorem progress_monotone_bounded_witness :
    0 ≤ ((fun i => if i = 0 then createJob "job-1" "ev market" DeckLength.short 0
        else { createJob "job-1" "ev market" DeckLength.short 0 with
               status := JobStatus.storyline, progress := 5 }) 1).progress
    ∧ ((fun i => if i = 0 then createJob "job-1" "ev market" DeckLength.short 0
        else { createJob "job-1" "ev market" DeckLength.short 0 with
               status := JobStatus.storyline, progress := 5 }) 1).progress ≤ 100
    ∧ ((fun i => if i = 0 then createJob "job-1" "ev market" DeckLength.short 0
        else { createJob "job-1" "ev market" DeckLength.short 0 with
               status := JobStatus.storyline, progress := 5 }) 0).progress
      ≤ ((fun i => if i = 0 then createJob "job-1" "ev market" DeckLength.short 0
        else { createJob "job-1" "ev market" DeckLength.short 0 with
               status := JobStatus.storyline, progress := 5 }) 1).progress :=
  progress_monotone_bounded
    (fun i => if i = 0 then createJob "job-1" "ev market" DeckLength.short 0
        else { createJob "job-1" "ev market" DeckLength.short 0 with
               status := JobStatus.storyline, progress := 5 }) 1 ⟨rfl, rfl⟩
    (by
      intro i hi
      have hi0 : i = 0 := by omega
      subst hi0
      exact RunStep.enterStoryline (createJob "job-1" "ev market" DeckLength.short 0) rfl)
    0 1 (by omega) (by omega)

/-- Claim C6: in every job state reachable from creation, `completed_at` is
set exactly when the status is completed or failed, and a state whose
`completed_at` is set admits no further step of the same run (so within one
run it is set exactly once, by the terminal transition; only a retry, which
begins a new run, ever clears it again). -/
theorem completedAt_iff_terminal (id topic : String) (len : DeckLength)
    (t : Int) (j : Job) (h : Reaches (createJob id topic len t) j) :
    (j.completedAt.isSome
      ↔ (j.status = JobStatus.completed ∨ j.status = JobStatus.failed))
    ∧ (∀ j', RunStep j j' → j.completedAt = none) := by
  have hiff : ∀ k, Reaches (createJob id topic len t) k →
      (k.completedAt.isSome
        ↔ (k.status = JobStatus.completed ∨ k.status = JobStatus.failed)) := by
    intro k hk
    induction hk with
    | refl => simp [createJob]
    | tail hsteps hstep ih =>
      cases hstep with
      | run hr =>
        cases hr with
        | enterStoryline hb => simp_all
        | exitStoryline hb => simp_all
        | exitResearch res hb => simp_all
        | exitSlides hb => simp_all
        | exitQuality q tq hb => simp_all
        | fail e tf hn1 hn2 => simp_all
      | retry hb => simp [resetRun]
  refine ⟨hiff j h, ?_⟩
  intro j' hj'
  obtain ⟨hnc, hnf⟩ := runStep_src_not_terminal hj'
  have hnone : ¬ j.completedAt.isSome := by
    rw [hiff j h]
    simp [hnc, hnf]
  exact Option.not_isSome_iff_eq_none.mp hnone

/-- Witness for C6 at the freshly created job. -/
theorem completedAt_iff_terminal_witness :
    ((createJob "job-1" "ev market" DeckLength.short 0).completedAt.isSome
      ↔ ((createJob "job-1" "ev market" DeckLength.short 0).status = JobStatus.completed
          ∨ (createJob "job-1" "ev market" DeckLength.short 0).status = JobStatus.failed))
    ∧ (∀ j', RunStep (createJob "job-1" "ev market" DeckLength.short 0) j' →
        (createJob "job-1" "ev market" DeckLength.short 0).completedAt = none) :=
  completedAt_iff_terminal "job-1" "ev market" DeckLength.short 0
    (createJob "job-1" "ev market" DeckLength.short 0) Relation.ReflTransGen.refl

/-- Claim C7: a retry request on a failed job starts a fresh run on the same
job id: the retry endpoint accepts the job and the resulting state is queued
with progress 0, a cleared error, the prior run's storyline, research and
quality outputs discarded, the completion time cleared, the id preserved and
the run generation advanced. -/
theorem retry_fresh_run (j : Job) (h : j.status = JobStatus.failed) :
    retryJob j = some (resetRun j)
    ∧ (resetRun j).status = JobStatus.queued
    ∧ (resetRun j).progress = 0
    ∧ (resetRun j).error = none
    ∧ (resetRun j).storylineOut = none
    ∧ (resetRun j).researchOut = none
    ∧ (resetRun j).qualityOut = none
    ∧ (resetRun j).completedAt = none
    ∧ (resetRun j).id = j.id
    ∧ (resetRun j).generation = j.generation + 1 := by
  refine ⟨?_, rfl, rfl, rfl, rfl, rfl, rfl, rfl, rfl, rfl⟩
  simp [retryJob, h]

/-- Witness for C7 at a concrete failed job. -/
theorem retry_fresh_run_witness :
    retryJob { createJob "job-1" "ev market" DeckLength.short 0 with
               status := JobStatus.failed, error := some "render failed",
               completedAt := some 9, progress := 55 }
      = some (resetRun { createJob "job-1" "ev market" DeckLength.short 0 with
               status := JobStatus.failed, error := some "render failed",
               completedAt := some 9, progress := 55 })
    ∧ (resetRun { createJob "job-1" "ev market" DeckLength.short 0 with
               status := JobStatus.failed, error := some "render failed",
               completedAt := some 9, progress := 55 }).status = JobStatus.queued
    ∧ (resetRun { createJob "job-1" "ev market" DeckLength.short 0 with
               status := JobStatus.failed, error := some "render failed",
               completedAt := some 9, progress := 55 }).progress = 0
    ∧ (resetRun { createJob "job-1" "ev market" DeckLength.short 0 with
               status := JobStatus.failed, error := some "render failed",
               completedAt := some 9, progress := 55 }).error = none
    ∧ (resetRun { createJob "job-1" "ev market" DeckLength.short 0 with
               status := JobStatus.failed, error := some "render failed",
               completedAt := some 9, progress := 55 }).storylineOut = none
    ∧ (resetRun { createJob "job-1" "ev market" DeckLength.short 0 with
               status := JobStatus.failed, error := some "render failed",
               completedAt := some 9, progress := 55 }).researchOut = none
    ∧ (resetRun { createJob "job-1" "ev market" DeckLength.short 0 with
               status := JobStatus.failed, error := some "render failed",
               completedAt := some 9, progress := 55 }).qualityOut = none
    ∧ (resetRun { createJob "job-1" "ev market" DeckLength.short 0 with
               status := JobStatus.failed, error := some "render failed",
               completedAt := some 9, progress := 55 }).completedAt = none
    ∧ (resetRun { createJob "job-1" "ev market" DeckLength.short 0 with
               status := JobStatus.failed, error := some "render failed",
               completedAt := some 9, progress := 55 }).id
      = ({ createJob "job-1" "ev market" DeckLength.short 0 with
               status := JobStatus.failed, error := some "render failed",
               completedAt := some 9, progress := 55 } : Job).id
    ∧ (resetRun { createJob "job-1" "ev market" DeckLength.short 0 with
               status := JobStatus.failed, error := some "render failed",
               completedAt := some 9, progress := 55 }).generation
      = ({ createJob "job-1" "ev market" DeckLength.short 0 with
               status := JobStatus.failed, error := some "render failed",
               completedAt := some 9, progress := 55 } : Job).generation + 1 :=
  retry_fresh_run { createJob "job-1" "ev market" DeckLength.short 0 with
               status := JobStatus.failed, error := some "render failed",
               completedAt := some 9, progress := 55 } rfl

/-- Whitespace characters stripped by `trim()` on form input (the ASCII
subset relevant to the topic textarea). -/
def isJsWhitespace (c : Char) : Bool :=
  c = ' ' || c = '\t' || c = '\n' || c = '\r'

/-- Embedding of `topic.trim()` from TopicInput.tsx: strip leading and
trailing whitespace. -/
def trimString (s : String) : String :=
  String.mk (((s.toList.dropWhile isJsWhitespace).reverse.dropWhile
    isJsWhitespace).reverse)

/-- Request body sent by `generatePresentation` (frontend `GenerateRequest`
in types.ts). -/
structure GenerateRequest where
  topic : String
  length : DeckLength
  llm_provider : String
  research_provider : String
  template_id : Option String
deriving DecidableEq

/-- Outcome of submitting the topic form: a local error message shown with
no network call, or the generate request handed to `generatePresentation`. -/
inductive SubmitOutcome where
  | localError (msg : String)
  | request (req : GenerateRequest)
deriving DecidableEq

/-- Embedding of `handleSubmit` in TopicInput.tsx: an empty trimmed topic
returns early with the error message, an empty LLM selection returns early
with its error message, and only otherwise is the generate request sent
(with the untrimmed topic, as in the source). -/
def handleSubmit (topic : String) (length : DeckLength)
    (selectedLlm selectedResearch : String) (templateId : Option String) :
    SubmitOutcome :=
  if trimString topic = "" then SubmitOutcome.localError "Please enter a topic"
  else if selectedLlm = "" then
    SubmitOutcome.localError "Please select an LLM provider"
  else SubmitOutcome.request
    { topic := topic
      length := length
      llm_provider := selectedLlm
      research_provider := selectedResearch
      template_id := templateId }

/-- Claim C9: when the topic text is empty or whitespace-only (its trim is
empty), the submit handler sets the local error message and sends no
generate request to the backend. -/
theorem empty_topic_no_request (topic : String) (len : DeckLength)
    (selectedLlm selectedResearch : String) (templateId : Option String)
    (h : trimString topic = "") :
    handleSubmit topic len selectedLlm selectedResearch templateId
      = SubmitOutcome.localError "Please enter a topic"
    ∧ ∀ req, handleSubmit topic len selectedLlm selectedResearch templateId
        ≠ SubmitOutcome.request req := by
  refine ⟨?_, ?_⟩
  · simp [handleSubmit, h]
  · intro req
    simp [handleSubmit, h]

/-- Witness for C9 on a whitespace-only topic. -/
theorem empty_topic_no_request_witness :
    handleSubmit "   " DeckLength.medium "claude" "mock" none
      = SubmitOutcome.localError "Please enter a topic"
    ∧ ∀ req, handleSubmit "   " DeckLength.medium "claude" "mock" none
        ≠ SubmitOutcome.request req :=
  empty_topic_no_request "   " DeckLength.medium "claude" "mock" none (by decide)

/-- Views of the single-page app (App.tsx `AppState`). -/
inductive AppView where
  | input
  | loading
  | results
  | history
deriving DecidableEq

/-- Job summary row listed by the history view (frontend `JobSummary` in
types.ts). -/
structure JobSummary where
  job_id : String
  topic : String
  length : String
  status : String
  progress : Int
  quality_score_overall : Option Int
  error : Option String
  created_at : String
  completed_at : Option String
deriving DecidableEq

/-- How the retry POST issued by `retryJob` in services/api.ts settles: the
promise either resolves or rejects with an error. -/
inductive RetryOutcome where
  | success
  | failure (err : String)
deriving DecidableEq

/-- Result of a history selection in App.tsx: the job id stored, the view
shown once any retry call has settled, and the id of the retry request
issued, if any. -/
structure SelectOutcome where
  jobId : String
  view : AppView
  retryRequested : Option String
deriving DecidableEq

/-- Embedding of `handleRetry` in App.tsx: `retryJob(id)` is always called;
when the promise resolves the app switches to the loading view, and when it
rejects the catch branch only logs the error, leaving the current view
unchanged. -/
def handleRetry (id : String) (outcome : RetryOutcome) (cur : AppView) :
    AppView × Option String :=
  match outcome with
  | RetryOutcome.success => (AppView.loading, some id)
  | RetryOutcome.failure _ => (cur, some id)

/-- Embedding of `handleSelectJob` in App.tsx: a completed job opens the
results view; a failed job is routed to `handleRetry` unconditionally; any
other status opens the loading view.  `outcome` is how the retry POST
settles and `cur` the view the app is on when the selection happens. -/
def handleSelectJob (id status : String) (outcome : RetryOutcome)
    (cur : AppView) : SelectOutcome :=
  if status = "completed" then
    { jobId := id, view := AppView.results, retryRequested := none }
  else if status = "failed" then
    { jobId := id, view := (handleRetry id outcome cur).1,
      retryRequested := (handleRetry id outcome cur).2 }
  else
    { jobId := id, view := AppView.loading, retryRequested := none }

/-- Embedding of the history row click in JobHistory.tsx: the row's onClick
invokes `onSelectJob(job.job_id, job.status)`, and the history list is
rendered only while the app is on the history view. -/
def jobHistoryRowClick (job : JobSummary) (outcome : RetryOutcome) :
    SelectOutcome :=
  handleSelectJob job.job_id job.status outcome AppView.history

/-- Counterexample to C10 as stated: on a failed row whose retry POST
rejects, the catch branch of `handleRetry` leaves the app on the history
view, so the click does not switch to the loading view. -/
theorem failed_row_click_retries_counterexample :
    ({ job_id := "job-9", topic := "ev market", length := "short",
       status := "failed", progress := 55, quality_score_overall := none,
       error := some "render failed", created_at := "2026-10-01",
       completed_at := some "2026-10-01" } : JobSummary).status = "failed"
    ∧ (jobHistoryRowClick
        { job_id := "job-9", topic := "ev market", length := "short",
          status := "failed", progress := 55, quality_score_overall := none,
          error := some "render failed", created_at := "2026-10-01",
          completed_at := some "2026-10-01" }
        (RetryOutcome.failure "network error")).view ≠ AppView.loading :=
  ⟨rfl, by decide⟩

/-- Claim C10 (amended): clicking a history row whose job status is failed
always issues a retry request for that job id; the app switches to the
loading view when the retry request succeeds and stays on the history view
when it fails; in neither case is the read-only results view opened,
because `handleSelectJob` routes the failed status to `handleRetry`
unconditionally. -/
theorem failed_row_click_retries (job : JobSummary) (outcome : RetryOutcome)
    (h : job.status = "failed") :
    (jobHistoryRowClick job outcome).retryRequested = some job.job_id
    ∧ (outcome = RetryOutcome.success →
        (jobHistoryRowClick job outcome).view = AppView.loading)
    ∧ (∀ e, outcome = RetryOutcome.failure e →
        (jobHistoryRowClick job outcome).view = AppView.history)
    ∧ (jobHistoryRowClick job outcome).view ≠ AppView.results := by
  have hne : ("failed" = "completed") = False := by decide
  cases outcome with
  | success =>
    refine ⟨?_, ?_, ?_, ?_⟩ <;>
      simp [jobHistoryRowClick, handleSelectJob, handleRetry, h, hne]
  | failure e =>
    refine ⟨?_, ?_, ?_, ?_⟩ <;>
      simp [jobHistoryRowClick, handleSelectJob, handleRetry, h, hne]

/-- Witness for the amended C10 on a concrete failed job row whose retry
succeeds. -/
theorem failed_row_click_retries_witness :
    (jobHistoryRowClick
      { job_id := "job-9", topic := "ev market", length := "short",
        status := "failed", progress := 55, quality_score_overall := none,
        error := some "render failed", created_at := "2026-10-01",
        completed_at := some "2026-10-01" }
      RetryOutcome.success).retryRequested = some "job-9"
    ∧ (RetryOutcome.success = RetryOutcome.success →
        (jobHistoryRowClick
          { job_id := "job-9", topic := "ev market", length := "short",
            status := "failed", progress := 55, quality_score_overall := none,
            error := some "render failed", created_at := "2026-10-01",
            completed_at := some "2026-10-01" }
          RetryOutcome.success).view = AppView.loading)
    ∧ (∀ e, RetryOutcome.success = RetryOutcome.failure e →
        (jobHistoryRowClick
          { job_id := "job-9", topic := "ev market", length := "short",
            status := "failed", progress := 55, quality_score_overall := none,
            error := some "render failed", created_at := "2026-10-01",
            completed_at := some "2026-10-01" }
          RetryOutcome.success).view = AppView.history)
    ∧ (jobHistoryRowClick
        { job_id := "job-9", topic := "ev market", length := "short",
          status := "failed", progress := 55, quality_score_overall := none,
          error := some "render failed", created_at := "2026-10-01",
          completed_at := some "2026-10-01" }
        RetryOutcome.success).view ≠ AppView.results :=
  failed_row_click_retries
    { job_id := "job-9", topic := "ev market", length := "short",
      status := "failed", progress := 55, quality_score_overall := none,
      error := some "render failed", created_at := "2026-10-01",
      completed_at := some "2026-10-01" }
    RetryOutcome.success rfl

end Prezi
